import Mathlib

/-
  Verification development for the WeatherToday plugin
  (src/weatherToday.ts and the near-duplicate variant src/unnamed/part_000).

  JavaScript strings are sequences of UTF-16 code units; we embed them as
  `List Nat` (each entry one code unit).  `String.length` and `substr` in the
  source operate on code units, so the embedding uses `List.length` and
  `List.take`.  JavaScript numbers are embedded as exact rationals `ℚ`
  (the counterexamples below use dyadic values, on which double arithmetic
  is exact, so the embedding agrees with the runtime there).
-/

/-- UTF-16 code units of one Unicode scalar value (surrogate pair for astral). -/
def charUnits (c : Char) : List Nat :=
  let n := c.toNat
  if n < 0x10000 then [n]
  else
    let m := n - 0x10000
    [0xD800 + m / 0x400, 0xDC00 + m % 0x400]

/-- Encode a Lean string literal as a JavaScript (UTF-16) string. -/
def jstr (s : String) : List Nat :=
  s.data.flatMap charUnits

/-- Decimal digits of a natural number, as UTF-16 units (fuel-driven). -/
def natDigitsAux : Nat → Nat → List Nat
  | 0, _ => []
  | fuel + 1, n =>
    if n < 10 then [48 + n]
    else natDigitsAux fuel (n / 10) ++ [48 + n % 10]

/-- Rendering of a natural number, as JavaScript prints it. -/
def natUnits (n : Nat) : List Nat := natDigitsAux (n + 1) n

/-- Rendering of an integer, as JavaScript prints it. -/
def intUnits (i : Int) : List Nat :=
  (if i < 0 then [45] else []) ++ natUnits i.natAbs

/-- The floor of a rational, computably (equal to Int.floor by
    Rat.floor_def, but reducible by the kernel). -/
def qfloor (q : ℚ) : Int := q.num / (q.den : Int)

/-- The absolute value of a rational, computably. -/
def qabs (q : ℚ) : ℚ := if q < 0 then -q else q

/-- Decimal digits of the fractional part of a rational (fuel-bounded,
    mirroring the finite decimal expansion JavaScript prints for doubles). -/
def fracDigits : Nat → ℚ → List Nat
  | 0, _ => []
  | fuel + 1, q =>
    if q = 0 then []
    else (48 + (qfloor (q * 10)).toNat % 10) :: fracDigits fuel (q * 10 - (qfloor (q * 10) : ℚ))

/-- Rendering of a rational number, as JavaScript prints the corresponding
    double: optional sign, integer part, and a dot plus fractional digits
    when the value is not an integer. -/
def ratUnits (q : ℚ) : List Nat :=
  (if q < 0 then [45] else []) ++ natUnits (Int.toNat (qfloor (qabs q))) ++
    (if qabs q - (qfloor (qabs q) : ℚ) = 0 then []
     else 46 :: fracDigits 17 (qabs q - (qfloor (qabs q) : ℚ)))

/-- JavaScript Math.round: round half toward positive infinity. -/
def jsRound (q : ℚ) : Int := qfloor (q + 1 / 2)

/-- Local hour of a Unix timestamp (seconds), for a host timezone offset in
    minutes: Date(time * 1000).getHours(). -/
def localHour (tzMin : Int) (t : Int) : Nat :=
  (((t + tzMin * 60).fdiv 3600) % 24).toNat

/-- getEmoji from src/weatherToday.ts: a switch over the sky-condition code,
    defaulting to the question-mark glyph. -/
def getEmoji (icon : String) : String :=
  if icon = "clear-day" then "☀️"
  else if icon = "clear-night" then "🌙"
  else if icon = "rain" then "🌧"
  else if icon = "snow" then "☃️"
  else if icon = "sleet" then "🌨"
  else if icon = "wind" then "💨"
  else if icon = "fog" then "🌫"
  else if icon = "cloudy" then "☁️"
  else if icon = "partly-cloudy-day" then "⛅️"
  else if icon = "partly-cloudy-night" then "☁️"
  else "❓"

/-- The WeatherIcons lookup table from src/unnamed/part_000. -/
def weatherIcons : List (String × String) :=
  [("clear-day", "☀"), ("clear-night", "🌙"), ("rain", "🌧"), ("snow", "☃"),
   ("sleet", "🌨"), ("wind", "💨"), ("fog", "🌫"), ("cloudy", "☁"),
   ("partly-cloudy-day", "⛅"), ("partly-cloudy-night", "☁")]

/-- getEmoji from src/unnamed/part_000: WeatherIcons[icon] || question mark. -/
def getEmojiV1 (icon : String) : String :=
  ((weatherIcons.find? (fun p => p.1 == icon)).map Prod.snd).getD "❓"

/-- One hourly sample of the forecast payload (the fields the plugin reads). -/
structure Weather where
  time : Int
  icon : String
  temperature : ℚ
  precipProbability : ℚ

/-- The forecast payload as used by tweetWeather: the currently.time stamp
    (read into the unused `now` variable) and the hourly sample list. -/
structure WeatherPayload where
  currentlyTime : Int
  hourly : List Weather

/-- Default sample for out-of-range indexing (never reached under the
    data-sufficiency guard). -/
def w0 : Weather := ⟨0, "", 0, 0⟩

/-- One time-block entry of the tweet text, src/weatherToday.ts lines
    105-109: hour line, then emoji, rounded temperature with the ℃ suffix and
    the UNROUNDED scaled precipitation probability with the ％ suffix, then a
    blank line. -/
def entryV0 (tz : Int) (d : Weather) : List Nat :=
  natUnits (localHour tz d.time) ++ jstr "時" ++ [10] ++
    jstr (getEmoji d.icon) ++ [32] ++ intUnits (jsRound d.temperature) ++
    jstr "℃" ++ [32] ++ ratUnits (d.precipProbability * 100) ++
    jstr "％" ++ [10, 10]

/-- The corresponding entry of src/unnamed/part_000, which rounds the scaled
    precipitation probability and uses the WeatherIcons table. -/
def entryV1 (tz : Int) (d : Weather) : List Nat :=
  natUnits (localHour tz d.time) ++ jstr "時" ++ [10] ++
    jstr (getEmojiV1 d.icon) ++ [32] ++ intUnits (jsRound d.temperature) ++
    jstr "℃" ++ [32] ++ intUnits (jsRound (d.precipProbability * 100)) ++
    jstr "％" ++ [10, 10]

/-- Modelled from the spec (for comparison with the code): the entry as the
    spec describes it, with sample hour, emoji, rounded temperature and a
    precipitation percentage rounded to the nearest integer. -/
def specEntry (tz : Int) (d : Weather) : List Nat :=
  natUnits (localHour tz d.time) ++ jstr "時" ++ [10] ++
    jstr (getEmojiV1 d.icon) ++ [32] ++ intUnits (jsRound d.temperature) ++
    jstr "℃" ++ [32] ++ intUnits (jsRound (d.precipProbability * 100)) ++
    jstr "％" ++ [10, 10]

/-- The text accumulated by the first n iterations of the for-loop
    (i = 0 .. n-1), each reading the sample at index i * 3. -/
def entriesFor (tz : Int) (w : WeatherPayload) : Nat → List Nat
  | 0 => []
  | n + 1 => entriesFor tz w n ++ entryV0 tz (w.hourly.getD (n * 3) w0)

/-- The fixed failure message. -/
def failText : List Nat := jstr "天気予報の取得に失敗しました。"

/-- The header line of the tweet. -/
def headerUnits (name : List Nat) : List Nat :=
  name ++ jstr "の天気予報" ++ [10, 10]

/-- The tweet text as built by src/weatherToday.ts lines 100-113 (before
    the 140-character truncation): guard `inter * count < length` with
    inter = 3, count = 8, then header plus 8 three-hourly entries, else the
    fixed failure message. -/
def buildTextV0 (tz : Int) (name : List Nat) (w : WeatherPayload) : List Nat :=
  if 3 * 8 < w.hourly.length then
    headerUnits name ++ entriesFor tz w 8
  else failText

/-- The 140-unit truncation of src/weatherToday.ts lines 116-119:
    substr(0, 139) plus an ellipsis when length exceeds 140 (both measured
    in UTF-16 code units, as JavaScript does). -/
def truncate140 (t : List Nat) : List Nat :=
  if 140 < t.length then t.take 139 ++ jstr "…" else t

/-- The full formatter: build then truncate. -/
def formatV0 (tz : Int) (name : List Nat) (w : WeatherPayload) : List Nat :=
  truncate140 (buildTextV0 tz name w)

/-- Number of Unicode code points of a UTF-16 unit sequence: a high surrogate
    followed by a low surrogate forms one code point. -/
def cpLen : List Nat → Nat
  | [] => 0
  | [_] => 1
  | u :: v :: rest =>
    if 0xD800 ≤ u ∧ u < 0xDC00 ∧ 0xDC00 ≤ v ∧ v < 0xE000 then cpLen rest + 1
    else cpLen (v :: rest) + 1

/-- Modelled from the spec (for comparison with the code): take the first n
    CODE POINTS of a UTF-16 unit sequence. -/
def cpTake : Nat → List Nat → List Nat
  | 0, _ => []
  | _, [] => []
  | n + 1, u :: rest =>
    match rest with
    | [] => [u]
    | v :: rest2 =>
      if 0xD800 ≤ u ∧ u < 0xDC00 ∧ 0xDC00 ≤ v ∧ v < 0xE000 then
        u :: v :: cpTake n rest2
      else u :: cpTake n (v :: rest2)

/-- The current wall-clock time as the plugin reads it: getHours/getMinutes. -/
structure SimpleTime where
  hours : Nat
  minutes : Nat

/-- A location: display name and coordinates. -/
structure Location where
  name : List Nat
  point : ℚ × ℚ

/-- A schedule entry, per the WeatherTodaySchedule interface. -/
structure WeatherTodaySchedule where
  hours : Nat
  minutes : Nat
  location : Location
  screenName : List Nat

/-- The predicate of getMatchedSchedule's find callback,
    `s && hours === s.hours && minutes === s.minutes`: a list element may be
    null (modelled as `none`), which the `s &&` guard rejects. -/
def schedMatches (t : SimpleTime) (o : Option WeatherTodaySchedule) : Bool :=
  match o with
  | none => false
  | some s => t.hours == s.hours && t.minutes == s.minutes

/-- getMatchedSchedule (src/weatherToday.ts lines 57-63): Array.find over the
    schedule list; the matched element is never null since the predicate
    rejects null, so the JS result (element or undefined) is flattened. -/
def getMatchedSchedule (t : SimpleTime) (l : List (Option WeatherTodaySchedule)) :
    Option WeatherTodaySchedule :=
  (l.find? (schedMatches t)).bind id

/-- JavaScript runtime faults relevant to this module. -/
inductive JSError where
  | typeError
  deriving DecidableEq

/-- run (src/weatherToday.ts lines 18-23) followed by the start of
    tweetWeather (line 90): the matched schedule is re-resolved and
    `schedule.location.point` is dereferenced with no null/undefined guard,
    so a missing match raises a TypeError; otherwise the matched entry flows
    on to the forecast fetch. -/
def runModel (t : SimpleTime) (l : List (Option WeatherTodaySchedule)) :
    Except JSError WeatherTodaySchedule :=
  match getMatchedSchedule t l with
  | none => Except.error JSError.typeError
  | some s => Except.ok s

/-- A JSON value as JSON.parse can produce it (undef is the JS undefined,
    which JSON.parse never returns but field access can). -/
inductive JSValue where
  | undef
  | null
  | bool (b : Bool)
  | num (q : ℚ)
  | str (s : List Nat)
  | arr (elems : List JSValue)
  | obj (fields : List (String × JSValue))

/-- JavaScript truthiness of a value. -/
def jsTruthy : JSValue → Bool
  | JSValue.undef => false
  | JSValue.null => false
  | JSValue.bool b => b
  | JSValue.num q => decide (q ≠ 0)
  | JSValue.str s => decide (s ≠ [])
  | JSValue.arr _ => true
  | JSValue.obj _ => true

/-- Property read `v.k`: a field of an object, undefined otherwise (numbers,
    strings and booleans box to objects without these fields). -/
def jsField (v : JSValue) (k : String) : JSValue :=
  match v with
  | JSValue.obj fields => ((fields.find? (fun p => p.1 == k)).map Prod.snd).getD JSValue.undef
  | _ => JSValue.undef

/-- Strict equality `v === q` against a number. -/
def jsEqNum (v : JSValue) (q : ℚ) : Bool :=
  match v with
  | JSValue.num m => m == q
  | _ => false

/-- Side effects of the plugin, for the observational claims. -/
inductive Effect where
  | computeSchedules
  | computeForecast
  | logWarn
  | logError
  | post (text : List Nat)
  | finish (isSuccess : Bool)
  deriving DecidableEq

/-- Whether an effect is a status post. -/
def isPostEff : Effect → Bool
  | Effect.post _ => true
  | _ => false

/-- Whether an effect is a completion-callback invocation. -/
def isFinishEff : Effect → Bool
  | Effect.finish _ => true
  | _ => false

/-- getSchedules (src/weatherToday.ts lines 45-55), parametrized by the
    outcome of JSON.parse on the stored string (`none` = the parse threw):
    the catch logs a warning and the initial empty array is returned; on
    success the parsed value is returned AS IS, with no shape validation. -/
def getSchedules (parseResult : Option JSValue) : JSValue × List Effect :=
  match parseResult with
  | none => (JSValue.arr [], [Effect.logWarn])
  | some v => (v, [])

/-- The find predicate of getMatchedSchedule at the JSON level. -/
def jsSchedMatches (t : SimpleTime) (e : JSValue) : Bool :=
  jsTruthy e && jsEqNum (jsField e "hours") t.hours &&
    jsEqNum (jsField e "minutes") t.minutes

/-- getMatchedSchedule applied to the raw cached JSON value: calling
    Array.prototype.find on a non-array value raises a TypeError. -/
def getMatchedScheduleJS (t : SimpleTime) (v : JSValue) :
    Except JSError (Option JSValue) :=
  match v with
  | JSValue.arr elems => Except.ok (elems.find? (jsSchedMatches t))
  | _ => Except.error JSError.typeError

/-- The forecast static field: undefined before first load, null when the
    API key was missing (getForecast lines 73-76), or a constructed client. -/
inductive ForecastSlot where
  | undef
  | nullc
  | client (key : List Nat)
  deriving DecidableEq

/-- Truthiness of the forecast slot (undefined and null are falsy). -/
def slotTruthy : ForecastSlot → Bool
  | ForecastSlot.client _ => true
  | _ => false

/-- getForecast (src/weatherToday.ts lines 73-87) composed with
    getForecastKey: a missing or empty key yields null, otherwise a client. -/
def getForecastM (key : Option (List Nat)) : ForecastSlot :=
  match key with
  | none => ForecastSlot.nullc
  | some [] => ForecastSlot.nullc
  | some ks => ForecastSlot.client ks

/-- The process-wide static state of the class. -/
structure ProcState where
  scheduleList : Option JSValue
  forecast : ForecastSlot

/-- Truthiness of the scheduleList static field (undefined when not yet
    assigned). -/
def jsTruthyOpt : Option JSValue → Bool
  | none => false
  | some v => jsTruthy v

/-- The state before the first validity check. -/
def initState : ProcState := ⟨none, ForecastSlot.undef⟩

/-- isValid (src/weatherToday.ts lines 32-43) as a state transformer over the
    static fields, parametrized by the per-account environment data (the
    JSON.parse outcome of the stored schedules and the stored API key):
    each falsy field is recomputed, then the schedule list is matched against
    the current time.  Returns the boolean (or the fault raised by the
    match), the updated static state, and the computation effects. -/
def isValidStep (p : Option JSValue) (key : Option (List Nat)) (t : SimpleTime)
    (st : ProcState) : Except JSError Bool × ProcState × List Effect :=
  let s1 :=
    if jsTruthyOpt st.scheduleList then (st.scheduleList.getD JSValue.undef, ([] : List Effect))
    else ((getSchedules p).1, Effect.computeSchedules :: (getSchedules p).2)
  let f1 :=
    if slotTruthy st.forecast then (st.forecast, ([] : List Effect))
    else (getForecastM key, [Effect.computeForecast])
  let res : Except JSError Bool :=
    match getMatchedScheduleJS t s1.1 with
    | Except.error e => Except.error e
    | Except.ok r => Except.ok r.isSome
  (res, ⟨some s1.1, f1.1⟩, s1.2 ++ f1.2)

/-- The observable effects of tweetWeather (src/weatherToday.ts lines
    89-127), parametrized by the forecast fetch outcome and the post
    operation's success flag: a fetch error is logged and the function
    returns (no post, no callback); otherwise the formatted text is posted
    and the callback receives the post result. -/
def tweetWeatherEffects (tz : Int) (sched : WeatherTodaySchedule)
    (fetch : Except (List Nat) WeatherPayload) (postResult : Bool) : List Effect :=
  match fetch with
  | Except.error _ => [Effect.logError]
  | Except.ok w =>
    [Effect.post (formatV0 tz sched.location.name w), Effect.finish postResult]

/-- Concrete time 07:30 used by the closed instances below. -/
def t730 : SimpleTime := ⟨7, 30⟩

/-- A concrete schedule entry for 07:30. -/
def sched1 : WeatherTodaySchedule := ⟨7, 30, ⟨jstr "東京", (35, 139)⟩, jstr "sn"⟩

/-- A truthy cached state: a non-empty schedule array and a client. -/
def stTruthy : ProcState :=
  ⟨some (JSValue.arr [JSValue.null]), ForecastSlot.client (jstr "k")⟩

/-- A payload with exactly 24 hourly samples. -/
def cW24 : WeatherPayload := ⟨0, List.replicate 24 ⟨0, "clear-day", 20, 33/100⟩⟩

/-- A payload with 25 hourly samples (the least count passing the guard). -/
def cW25 : WeatherPayload := ⟨0, List.replicate 25 ⟨0, "clear-day", 20, 33/100⟩⟩

/-- A 30-character location name. -/
def nameA : List Nat := List.replicate 30 12354

/-- A payload of 25 clear-night samples, whose entries carry an astral
    (surrogate-pair) moon emoji. -/
def cWNight : WeatherPayload := ⟨0, List.replicate 25 ⟨0, "clear-night", 20, 33/100⟩⟩

/-- A sample whose scaled precipitation probability is 12.5 (exact in
    binary floating point). -/
def dRain : Weather := ⟨0, "rain", 20, 1/8⟩

theorem natDigitsAux_bound :
    ∀ (fuel n u : Nat), u ∈ natDigitsAux fuel n → 48 ≤ u ∧ u ≤ 57 := by
  intro fuel
  induction fuel with
  | zero => intro n u h; simp [natDigitsAux] at h
  | succ f ih =>
    intro n u h
    unfold natDigitsAux at h
    split at h
    · simp at h; omega
    · rcases List.mem_append.mp h with h1 | h2
      · exact ih _ _ h1
      · simp at h2
        have : n % 10 < 10 := Nat.mod_lt _ (by omega)
        omega

theorem fracDigits_bound :
    ∀ (fuel : Nat) (q : ℚ) (u : Nat), u ∈ fracDigits fuel q → 48 ≤ u ∧ u ≤ 57 := by
  intro fuel
  induction fuel with
  | zero => intro q u h; simp [fracDigits] at h
  | succ f ih =>
    intro q u h
    unfold fracDigits at h
    split at h
    · simp at h
    · rcases List.mem_cons.mp h with h1 | h2
      · have : (qfloor (q * 10)).toNat % 10 < 10 := Nat.mod_lt _ (by omega)
        omega
      · exact ih _ _ h2

theorem count_natUnits (n : Nat) : (natUnits n).count 8451 = 0 := by
  rw [List.count_eq_zero]
  intro h
  have := natDigitsAux_bound _ _ _ h
  omega

theorem count_intUnits (i : Int) : (intUnits i).count 8451 = 0 := by
  rw [List.count_eq_zero]
  intro h
  unfold intUnits at h
  rcases List.mem_append.mp h with h1 | h2
  · split at h1 <;> simp at h1
  · have := natDigitsAux_bound _ _ _ h2
    omega

theorem count_ratUnits (q : ℚ) : (ratUnits q).count 8451 = 0 := by
  rw [List.count_eq_zero]
  intro h
  unfold ratUnits at h
  rcases List.mem_append.mp h with h1 | h2
  · rcases List.mem_append.mp h1 with h3 | h4
    · split at h3 <;> simp at h3
    · have := natDigitsAux_bound _ _ _ h4
      omega
  · split at h2
    · simp at h2
    · rcases List.mem_cons.mp h2 with h5 | h6
      · omega
      · have := fracDigits_bound _ _ _ h6
        omega

theorem count_emoji (icon : String) : (jstr (getEmoji icon)).count 8451 = 0 := by
  unfold getEmoji
  repeat' split
  all_goals rfl

theorem count_entryV0 (tz : Int) (d : Weather) : (entryV0 tz d).count 8451 = 1 := by
  unfold entryV0
  simp only [List.count_append, count_natUnits, count_intUnits, count_ratUnits, count_emoji]
  rfl

theorem count_entriesFor (tz : Int) (w : WeatherPayload) :
    ∀ n, (entriesFor tz w n).count 8451 = n := by
  intro n
  induction n with
  | zero => rfl
  | succ n ih => simp [entriesFor, List.count_append, ih, count_entryV0]

theorem cpLen_le : ∀ l : List Nat, cpLen l ≤ l.length
  | [] => by simp [cpLen]
  | [_] => by simp [cpLen]
  | u :: v :: rest => by
    unfold cpLen
    split
    · have := cpLen_le rest
      simp only [List.length_cons]
      omega
    · have := cpLen_le (v :: rest)
      simp only [List.length_cons] at *
      omega

theorem find?_first {α : Type} (p : α → Bool) :
    ∀ (l : List α) (a : α), l.find? p = some a →
      p a = true ∧ ∃ l₁ l₂, l = l₁ ++ a :: l₂ ∧ ∀ b ∈ l₁, p b = false := by
  intro l
  induction l with
  | nil => intro a h; simp at h
  | cons x xs ih =>
    intro a h
    cases hpx : p x with
    | true =>
      rw [List.find?_cons_of_pos _ hpx] at h
      cases h
      exact ⟨hpx, [], xs, rfl, by simp⟩
    | false =>
      rw [List.find?_cons_of_neg _ (by simp [hpx])] at h
      obtain ⟨hpa, l₁, l₂, hsplit, hall⟩ := ih a h
      refine ⟨hpa, x :: l₁, l₂, by rw [hsplit]; rfl, ?_⟩
      intro b hb
      rcases List.mem_cons.mp hb with rfl | hb2
      · exact hpx
      · exact hall b hb2

theorem gms_eq_some_iff (t : SimpleTime) (l : List (Option WeatherTodaySchedule))
    (s : WeatherTodaySchedule) :
    getMatchedSchedule t l = some s ↔ l.find? (schedMatches t) = some (some s) := by
  unfold getMatchedSchedule
  constructor
  · intro h
    cases hf : l.find? (schedMatches t) with
    | none => rw [hf] at h; simp at h
    | some o =>
      rw [hf] at h
      cases o with
      | none => have := List.find?_some hf; simp [schedMatches] at this
      | some s2 => simp at h; rw [h]
  · intro h
    rw [h]
    rfl

/-- C2: getMatchedSchedule returns an entry iff some (non-null) entry's
    (hours, minutes) equals the current time's (hour, minute); when several
    qualify it returns the first in list order (everything before it fails
    the predicate); the empty list yields no match.  The function is a pure
    value-level computation (no side effects by construction). -/
theorem getMatchedSchedule_spec (t : SimpleTime) (l : List (Option WeatherTodaySchedule)) :
    ((getMatchedSchedule t l).isSome = true ↔
      ∃ s : WeatherTodaySchedule, some s ∈ l ∧ schedMatches t (some s) = true)
    ∧ (∀ s : WeatherTodaySchedule, getMatchedSchedule t l = some s →
        schedMatches t (some s) = true ∧
        ∃ l₁ l₂, l = l₁ ++ some s :: l₂ ∧ ∀ o ∈ l₁, schedMatches t o = false)
    ∧ getMatchedSchedule t ([] : List (Option WeatherTodaySchedule)) = none := by
  refine ⟨⟨?_, ?_⟩, ?_, rfl⟩
  · intro h
    obtain ⟨s, hs⟩ := Option.isSome_iff_exists.mp h
    have hf := (gms_eq_some_iff t l s).mp hs
    exact ⟨s, List.mem_of_find?_eq_some hf, List.find?_some hf⟩
  · rintro ⟨s, hmem, hmatch⟩
    have hsome : (l.find? (schedMatches t)).isSome := by
      rw [List.find?_isSome]
      exact ⟨some s, hmem, hmatch⟩
    obtain ⟨o, ho⟩ := Option.isSome_iff_exists.mp hsome
    have hpo := List.find?_some ho
    cases o with
    | none => simp [schedMatches] at hpo
    | some s2 => rw [(gms_eq_some_iff t l s2).mpr ho]; rfl
  · intro s h
    have hf := (gms_eq_some_iff t l s).mp h
    obtain ⟨hp, l₁, l₂, hsplit, hall⟩ := find?_first (schedMatches t) l (some s) hf
    exact ⟨hp, l₁, l₂, hsplit, hall⟩

/-- C2 witness: the specification instantiated on a singleton list at its
    matching time. -/
theorem getMatchedSchedule_spec_witness :
    schedMatches t730 (some sched1) = true ∧
      ∃ l₁ l₂, [some sched1] = l₁ ++ some sched1 :: l₂ ∧
        ∀ o ∈ l₁, schedMatches t730 o = false :=
  (getMatchedSchedule_spec t730 [some sched1]).2.1 sched1 (by rfl)

/-- C3: when the forecast fetch callback receives an error, the only effect
    is the error log: nothing is posted and the completion callback is never
    invoked, whatever the would-be post outcome was. -/
theorem tweetWeather_error_silent (tz : Int) (s : WeatherTodaySchedule)
    (err : List Nat) (pr : Bool) :
    tweetWeatherEffects tz s (Except.error err) pr = [Effect.logError]
    ∧ (tweetWeatherEffects tz s (Except.error err) pr).any isPostEff = false
    ∧ (tweetWeatherEffects tz s (Except.error err) pr).any isFinishEff = false :=
  ⟨rfl, rfl, rfl⟩

/-- C6: when JSON.parse of the stored string throws (malformed JSON),
    getSchedules logs a warning and returns the empty array; the total
    return type records that no exception propagates to the caller, and the
    matcher degrades to no match on the empty result. -/
theorem getSchedules_malformed :
    getSchedules none = (JSValue.arr [], [Effect.logWarn])
    ∧ ∀ t : SimpleTime, getMatchedScheduleJS t (getSchedules none).1 = Except.ok none :=
  ⟨rfl, fun _ => rfl⟩

/-- C8: getEmoji maps each of the 10 known sky-condition codes to its glyph
    and every other code to the question-mark glyph. -/
theorem getEmoji_spec :
    getEmoji "clear-day" = "☀️" ∧ getEmoji "clear-night" = "🌙"
    ∧ getEmoji "rain" = "🌧" ∧ getEmoji "snow" = "☃️" ∧ getEmoji "sleet" = "🌨"
    ∧ getEmoji "wind" = "💨" ∧ getEmoji "fog" = "🌫" ∧ getEmoji "cloudy" = "☁️"
    ∧ getEmoji "partly-cloudy-day" = "⛅️" ∧ getEmoji "partly-cloudy-night" = "☁️"
    ∧ ∀ icon : String,
        icon ∉ ["clear-day", "clear-night", "rain", "snow", "sleet", "wind",
          "fog", "cloudy", "partly-cloudy-day", "partly-cloudy-night"] →
        getEmoji icon = "❓" := by
  refine ⟨rfl, rfl, rfl, rfl, rfl, rfl, rfl, rfl, rfl, rfl, ?_⟩
  intro icon h
  simp only [List.mem_cons, List.not_mem_nil, not_or, or_false] at h
  obtain ⟨h1, h2, h3, h4, h5, h6, h7, h8, h9, h10⟩ := h
  simp [getEmoji, h1, h2, h3, h4, h5, h6, h7, h8, h9, h10]

/-- C8 witness: an unknown code maps to the question-mark glyph. -/
theorem getEmoji_spec_witness : getEmoji "tornado" = "❓" :=
  getEmoji_spec.2.2.2.2.2.2.2.2.2.2 "tornado" (by decide)

/-- C9: when no schedule entry matches the current time, run re-resolves the
    match to undefined and tweetWeather dereferences `schedule.location`
    unguarded, raising a TypeError: there is no no-op path. -/
theorem run_no_match_faults (t : SimpleTime) (l : List (Option WeatherTodaySchedule))
    (h : ∀ o ∈ l, schedMatches t o = false) :
    runModel t l = Except.error JSError.typeError := by
  unfold runModel getMatchedSchedule
  rw [List.find?_eq_none.mpr (by intro x hx; simp [h x hx])]
  rfl

/-- C9 witness: running against the empty schedule list faults. -/
theorem run_no_match_faults_witness :
    runModel t730 [] = Except.error JSError.typeError :=
  run_no_match_faults t730 [] (by intro o ho; simp at ho)

/-- C10: getSchedules returns the JSON.parse result unvalidated: the number 5
    (valid JSON, not an array) is returned, cached as the schedule list by
    isValid, and the subsequent find traversal raises a TypeError instead of
    degrading to no match. -/
theorem getSchedules_no_validation_faults :
    (getSchedules (some (JSValue.num 5))).1 = JSValue.num 5
    ∧ getMatchedScheduleJS t730 (JSValue.num 5) = Except.error JSError.typeError
    ∧ (isValidStep (some (JSValue.num 5)) (some (jstr "k")) t730 initState).2.1.scheduleList
        = some (JSValue.num 5)
    ∧ (isValidStep (some (JSValue.num 5)) (some (jstr "k")) t730 initState).1
        = Except.error JSError.typeError :=
  ⟨rfl, rfl, rfl, rfl⟩

/-- C7 (amended): once the cached fields are truthy (a loaded schedule value
    and a constructed client), no later validity check recomputes them or
    changes the static state. -/
theorem cache_no_refresh_once_truthy (p : Option JSValue) (k : Option (List Nat))
    (t : SimpleTime) (st : ProcState)
    (hs : jsTruthyOpt st.scheduleList = true) (hf : slotTruthy st.forecast = true) :
    (isValidStep p k t st).2.1 = st ∧ (isValidStep p k t st).2.2 = [] := by
  obtain ⟨sl, hsl⟩ : ∃ v, st.scheduleList = some v := by
    cases hcase : st.scheduleList with
    | none => rw [hcase] at hs; simp [jsTruthyOpt] at hs
    | some v => exact ⟨v, rfl⟩
  cases st with
  | mk s f =>
    simp only at hsl
    subst hsl
    simp only at hs hf
    simp [isValidStep, hs, hf]

/-- C7 witness: a later validity check leaves a truthy cache untouched. -/
theorem cache_no_refresh_once_truthy_witness :
    (isValidStep none none t730 stTruthy).2.1 = stTruthy
    ∧ (isValidStep none none t730 stTruthy).2.2 = [] :=
  cache_no_refresh_once_truthy none none t730 stTruthy rfl rfl

/-- C7 counterexample: with the API key missing, getForecast yields null
    (falsy), so the first AND the second validity check both recompute the
    forecast client: the computation is not at-most-once per process. -/
theorem forecast_recomputed_when_key_missing :
    (isValidStep (some (JSValue.arr [])) none t730 initState).2.2
      = [Effect.computeSchedules, Effect.computeForecast]
    ∧ (isValidStep (some (JSValue.arr [])) none t730
        (isValidStep (some (JSValue.arr [])) none t730 initState).2.1).2.2
      = [Effect.computeForecast] :=
  ⟨rfl, rfl⟩

/-- C1 (amended): the fixed failure string is returned whenever the payload
    has 24 or fewer hourly samples (the guard is strict: `3 * 8 < length`),
    and with at least 25 samples the built text is the header followed by
    exactly 8 time-block entries (counted by their ℃ marks, the location
    name containing none); the subsequent 140-unit truncation may shorten
    the built text. -/
theorem format_guard_and_entries (tz : Int) (name : List Nat) (w : WeatherPayload) :
    (w.hourly.length ≤ 24 → formatV0 tz name w = failText)
    ∧ (24 < w.hourly.length →
        buildTextV0 tz name w = headerUnits name ++ entriesFor tz w 8
        ∧ (entriesFor tz w 8).count 8451 = 8
        ∧ (name.count 8451 = 0 → (buildTextV0 tz name w).count 8451 = 8)) := by
  have hh : (jstr "の天気予報").count 8451 = 0 := rfl
  have hnl : ([10, 10] : List Nat).count 8451 = 0 := rfl
  constructor
  · intro h
    unfold formatV0 buildTextV0
    rw [if_neg (by omega)]
    unfold truncate140
    rw [if_neg (by decide)]
  · intro h
    have hb : buildTextV0 tz name w = headerUnits name ++ entriesFor tz w 8 := by
      unfold buildTextV0
      rw [if_pos (by omega)]
    refine ⟨hb, count_entriesFor tz w 8, fun hn => ?_⟩
    rw [hb]
    simp only [headerUnits, List.count_append, count_entriesFor, hn, hh, hnl]

/-- C1 witness: the guard theorem applied to concrete payloads on both
    sides of the boundary. -/
theorem format_guard_and_entries_witness :
    formatV0 0 (jstr "東京") cW24 = failText
    ∧ (buildTextV0 0 (jstr "東京") cW25).count 8451 = 8 :=
  ⟨(format_guard_and_entries 0 (jstr "東京") cW24).1 (by decide),
   ((format_guard_and_entries 0 (jstr "東京") cW25).2 (by decide)).2.2 (by decide)⟩

/-- C1 counterexample: a payload with exactly 24 hourly samples (the claim's
    "≥ 24 samples" success case) yields the fixed failure string, not a text
    starting with the location header. -/
theorem format_at_24_samples_fails :
    cW24.hourly.length = 24
    ∧ formatV0 0 (jstr "東京") cW24 = failText
    ∧ (formatV0 0 (jstr "東京") cW24).take 2 ≠ (headerUnits (jstr "東京")).take 2 := by
  refine ⟨by decide, by decide, by decide⟩

/-- C4 (amended): the formatter's output never exceeds 140 UTF-16 code units
    (hence also 140 code points), and whenever the built text exceeds 140
    UTF-16 code units the output is exactly its first 139 code units
    followed by the ellipsis: all lengths are code-unit counts, not code
    points. -/
theorem format_truncation_utf16 (tz : Int) (name : List Nat) (w : WeatherPayload) :
    ((formatV0 tz name w).length ≤ 140 ∧ cpLen (formatV0 tz name w) ≤ 140)
    ∧ (140 < (buildTextV0 tz name w).length →
        formatV0 tz name w = (buildTextV0 tz name w).take 139 ++ jstr "…") := by
  have hell : (jstr "…").length = 1 := rfl
  unfold formatV0 truncate140
  by_cases h : 140 < (buildTextV0 tz name w).length
  · rw [if_pos h]
    have hlen : ((buildTextV0 tz name w).take 139 ++ jstr "…").length = 140 := by
      rw [List.length_append, List.length_take, hell]
      omega
    exact ⟨⟨le_of_eq hlen, hlen ▸ cpLen_le _⟩, fun _ => rfl⟩
  · rw [if_neg h]
    exact ⟨⟨by omega, le_trans (cpLen_le _) (by omega)⟩, fun hc => absurd hc h⟩

set_option maxRecDepth 100000 in
/-- C4 witness: the truncation equation at a concrete overlong build. -/
theorem format_truncation_utf16_witness :
    formatV0 0 nameA cWNight = (buildTextV0 0 nameA cWNight).take 139 ++ jstr "…" :=
  (format_truncation_utf16 0 nameA cWNight).2 (by with_unfolding_all decide)

set_option maxRecDepth 100000 in
/-- C4 counterexample: a built text of 149 code points but 157 code units is
    truncated at 139 UNITS, so the result is not the first 139 code points
    followed by the ellipsis in the 140th code-point position. -/
theorem truncation_not_codepoint_based :
    cpLen (buildTextV0 0 nameA cWNight) = 149
    ∧ (buildTextV0 0 nameA cWNight).length = 157
    ∧ formatV0 0 nameA cWNight ≠ cpTake 139 (buildTextV0 0 nameA cWNight) ++ jstr "…" := by
  refine ⟨by with_unfolding_all decide, by with_unfolding_all decide,
    by with_unfolding_all decide⟩

theorem entriesFor_split (tz : Int) (w : WeatherPayload) :
    ∀ n i, i < n → ∃ post, entriesFor tz w n =
      entriesFor tz w i ++ (entryV0 tz (w.hourly.getD (i * 3) w0) ++ post) := by
  intro n
  induction n with
  | zero => intro i h; omega
  | succ n ih =>
    intro i h
    by_cases hc : i = n
    · subst hc
      exact ⟨[], by simp [entriesFor]⟩
    · obtain ⟨post, hp⟩ := ih i (by omega)
      refine ⟨post ++ entryV0 tz (w.hourly.getD (n * 3) w0), ?_⟩
      simp [entriesFor, hp]

theorem qfloor_eq (q : ℚ) : qfloor q = ⌊q⌋ := Rat.floor_def.symm

theorem qabs_eq (q : ℚ) : qabs q = |q| := by
  unfold qabs
  split
  · exact (abs_of_neg (by assumption)).symm
  · exact (abs_of_nonneg (not_lt.mp (by assumption))).symm

theorem ratUnits_int (q : ℚ) (hq : q.den = 1) : ratUnits q = intUnits (jsRound q) := by
  obtain ⟨n, rfl⟩ : ∃ n : ℤ, q = (n : ℚ) := by
    refine ⟨q.num, ?_⟩
    have h := Rat.num_div_den q
    rw [hq] at h
    simpa using h.symm
  have habs : |(n : ℚ)| = ((|n| : ℤ) : ℚ) := by rw [Int.cast_abs]
  have hfloor : qfloor (qabs (n : ℚ)) = |n| := by
    rw [qfloor_eq, qabs_eq, habs]
    exact Int.floor_intCast _
  have hround : jsRound (n : ℚ) = n := by
    unfold jsRound
    rw [qfloor_eq, add_comm, Int.floor_add_int]
    have h12 : ⌊(1 / 2 : ℚ)⌋ = 0 := by
      rw [Int.floor_eq_zero_iff]
      constructor <;> norm_num
    omega
  have hlt : ((n : ℚ) < 0) ↔ (n < 0) := Int.cast_lt_zero
  have htn : (|n|).toNat = n.natAbs := by
    rw [← Int.natCast_natAbs, Int.toNat_natCast]
  unfold ratUnits intUnits
  rw [hround, hfloor]
  have hfr2 : qabs (n : ℚ) - ((|n| : ℤ) : ℚ) = 0 := by
    rw [qabs_eq, habs]
    ring
  rw [if_pos hfr2, htn]
  by_cases hneg : n < 0
  · rw [if_pos (hlt.mpr hneg), if_pos hneg]
    simp
  · rw [if_neg (fun hc => hneg (hlt.mp hc)), if_neg hneg]
    simp

/-- C5 (amended): the i-th time-block entry of the built text uses the
    hourly sample at index i × 3 and consists of the sample's local hour,
    its emoji, the rounded temperature with the ℃ suffix and the scaled
    precipitation percentage with the ％ suffix, then a blank line; the
    part_000 variant rounds that percentage exactly as the claim states,
    while the weatherToday.ts variant interpolates it unrounded and only
    agrees with the rounded form when the scaled value is an integer. -/
theorem format_entry_structure (tz : Int) (name : List Nat) (w : WeatherPayload)
    (i : Nat) (hlen : 24 < w.hourly.length) (hi : i < 8) (d : Weather) (q : ℚ)
    (hq : q.den = 1) :
    (∃ post, buildTextV0 tz name w =
      headerUnits name ++ entriesFor tz w i
        ++ entryV0 tz (w.hourly.getD (i * 3) w0) ++ post)
    ∧ entryV1 tz d = specEntry tz d
    ∧ ratUnits q = intUnits (jsRound q) := by
  refine ⟨?_, rfl, ratUnits_int q hq⟩
  unfold buildTextV0
  rw [if_pos (by omega)]
  obtain ⟨post, hp⟩ := entriesFor_split tz w 8 i hi
  refine ⟨post, ?_⟩
  rw [hp]
  simp [List.append_assoc]

/-- C5 witness: the entry-structure theorem at a concrete payload, sample
    and integral percentage. -/
theorem format_entry_structure_witness :
    (∃ post, buildTextV0 0 (jstr "X") cW25 =
      headerUnits (jstr "X") ++ entriesFor 0 cW25 2
        ++ entryV0 0 (cW25.hourly.getD (2 * 3) w0) ++ post)
    ∧ entryV1 0 dRain = specEntry 0 dRain
    ∧ ratUnits 33 = intUnits (jsRound 33) :=
  format_entry_structure 0 (jstr "X") cW25 2 (by decide) (by decide) dRain 33 (by decide)

set_option maxRecDepth 100000 in
/-- C5 counterexample: with precipProbability = 1/8 the weatherToday.ts
    entry renders the raw value 12.5％, not the rounded 13％ the claim
    describes. -/
theorem entry_precip_not_rounded :
    entryV0 0 dRain = jstr "0時\n🌧 20℃ 12.5％\n\n"
    ∧ entryV0 0 dRain ≠ specEntry 0 dRain := by
  refine ⟨by with_unfolding_all decide, by with_unfolding_all decide⟩
